import Mathlib

/-!
Shallow embedding of services/jni/com_android_server_BatteryService.cpp.

The file models the two phases of the native battery service: one-time
discovery of power-supply pseudo-file paths (the Battery branch of
register_android_server_BatteryService) and the per-poll update that
populates the battery record (android_server_BatteryService_update).

Filesystem contents are modelled as a partial map from path strings to
character lists: a mapped path is one whose open and read succeed, an
unmapped path is one whose open fails.  The access-based readability
probe used at discovery is a separate boolean predicate on paths, as in
the source it is a distinct system call from the content read.
-/

/-- Classification result for the content of a type pseudo-file
(enum PowerSupplyType in the source). -/
inductive PowerSupplyType where
  | Unknown
  | AC
  | USB
  | Wireless
  | Battery
deriving DecidableEq, Repr

/-- Battery status codes (the gConstants.status values, abstracted to an
enumeration since the source only copies opaque distinct integers from
the host object model). -/
inductive BatteryStatus where
  | Unknown
  | Charging
  | Discharging
  | NotCharging
  | Full
deriving DecidableEq, Repr

/-- Battery health codes (the gConstants.health values, abstracted to an
enumeration). -/
inductive BatteryHealth where
  | Unknown
  | Good
  | Overheat
  | Dead
  | OverVoltage
  | UnspecifiedFailure
  | Cold
deriving DecidableEq, Repr

/-- A filesystem: readable paths are mapped to their raw content. -/
abbrev FS := String → Option (List Char)

/-- The fixed power-supply root directory (POWER_SUPPLY_PATH). -/
def POWER_SUPPLY_PATH : String := "/sys/class/power_supply"

/-- Path of a pseudo-file inside one power-supply directory, as built by
path.appendFormat in the source. -/
def psPath (name file : String) : String :=
  POWER_SUPPLY_PATH ++ "/" ++ name ++ "/" ++ file

/-- Drop every trailing newline character, as the while loop in
readFromFile does before NUL-terminating the buffer. -/
def stripNL (l : List Char) : List Char :=
  (l.reverse.dropWhile (fun c => c == '\n')).reverse

/-- readFromFile collapsed to its observable result: none when the path
is empty, the open fails, the read yields no bytes, or everything read
was newlines (count becomes 0); otherwise the newline-stripped content
of the first size bytes.  Every caller treats a return value of at most
0 as failure, so the Option collapse is faithful. -/
def readFromFile (fs : FS) (path : String) (size : Nat) : Option (List Char) :=
  if path = "" then none
  else
    match fs path with
    | none => none
    | some content =>
        if (stripNL (content.take size)).isEmpty then none
        else some (stripNL (content.take size))

/-- The characters accepted as whitespace by the isspace test inside
atoi: space and the control characters 9 to 13. -/
def isSpaceChar (c : Char) : Bool :=
  c == ' ' || (9 ≤ c.toNat && c.toNat ≤ 13)

/-- Accumulate leading decimal digits, stopping at the first non-digit,
as the digit loop of atoi does. -/
def parseDigits : List Char → Nat → Nat
  | [], acc => acc
  | c :: cs, acc =>
      if c.isDigit then parseDigits cs (10 * acc + (c.toNat - 48)) else acc

/-- C atoi: skip leading whitespace, read an optional sign, then decimal
digits; no digits yields 0. -/
def atoi (s : List Char) : Int :=
  match s.dropWhile isSpaceChar with
  | '-' :: rest => -(parseDigits rest 0 : Int)
  | '+' :: rest => (parseDigits rest 0 : Int)
  | t => (parseDigits t 0 : Int)

/-- The buf[0] != '0' test of the boolean readers (the buffer of a
successful read is never empty). -/
def firstCharNonZero : List Char → Bool
  | [] => false
  | c :: _ => c != '0'

/-- setBooleanField: the value written is true iff the read succeeds and
the first byte differs from the character 0. -/
def setBooleanField (fs : FS) (path : String) : Bool :=
  match readFromFile fs path 16 with
  | some buf => firstCharNonZero buf
  | none => false

/-- setIntField: the value written is the parsed content on success and
0 on failure. -/
def setIntField (fs : FS) (path : String) : Int :=
  match readFromFile fs path 128 with
  | some buf => atoi buf
  | none => 0

/-- setVoltageField: like setIntField but the parsed value is divided by
the discovery-time divisor with C truncating division. -/
def setVoltageField (fs : FS) (path : String) (divisor : Int) : Int :=
  match readFromFile fs path 128 with
  | some buf => Int.tdiv (atoi buf) divisor
  | none => 0

/-- setChargeLevel: when both the charge-now and the charge-full reads
succeed, write now * 100 / full with C truncating division; otherwise
leave the destination field at its previous value (the source comment:
do not set 0 when the battery path disappears for a while). -/
def setChargeLevel (fs : FS) (nowPath fullPath : String) (prev : Int) : Int :=
  match readFromFile fs nowPath 128, readFromFile fs fullPath 128 with
  | some b1, some b2 => Int.tdiv (atoi b1 * 100) (atoi b2)
  | _, _ => prev

/-- getBatteryStatus: switch on the first character of the status
string; the default case returns the Unknown code. -/
def getBatteryStatus (status : List Char) : BatteryStatus :=
  match status.head? with
  | none => BatteryStatus.Unknown
  | some c =>
      if c = 'C' then BatteryStatus.Charging
      else if c = 'D' then BatteryStatus.Discharging
      else if c = 'F' then BatteryStatus.Full
      else if c = 'N' then BatteryStatus.NotCharging
      else if c = 'U' then BatteryStatus.Unknown
      else BatteryStatus.Unknown

/-- getBatteryHealth: switch on the first character, with full-string
comparison inside the O and U cases; the unmatched U case falls through
to the default, which returns the Unknown code. -/
def getBatteryHealth (status : List Char) : BatteryHealth :=
  match status.head? with
  | none => BatteryHealth.Unknown
  | some c =>
      if c = 'C' then BatteryHealth.Cold
      else if c = 'D' then BatteryHealth.Dead
      else if c = 'G' then BatteryHealth.Good
      else if c = 'O' then
        if status = "Overheat".toList then BatteryHealth.Overheat
        else if status = "Over voltage".toList then BatteryHealth.OverVoltage
        else BatteryHealth.Unknown
      else if c = 'U' then
        if status = "Unspecified failure".toList then BatteryHealth.UnspecifiedFailure
        else if status = "Unknown".toList then BatteryHealth.Unknown
        else BatteryHealth.Unknown
      else BatteryHealth.Unknown

/-- readPowerSupplyType: read the type file (failure or empty content
gives Unknown), drop a trailing newline if one survived (the content is
already newline-stripped by readFromFile, so the branch is inert), then
match the exact strings in source order. -/
def readPowerSupplyType (fs : FS) (path : String) : PowerSupplyType :=
  match readFromFile fs path 128 with
  | none => PowerSupplyType.Unknown
  | some buf =>
      let buf2 := if buf.getLast? = some '\n' then buf.dropLast else buf
      if buf2 = "Battery".toList then PowerSupplyType.Battery
      else if buf2 = "Mains".toList then PowerSupplyType.AC
      else if buf2 = "USB_DCP".toList then PowerSupplyType.AC
      else if buf2 = "USB_CDP".toList then PowerSupplyType.AC
      else if buf2 = "USB_ACA".toList then PowerSupplyType.AC
      else if buf2 = "USB".toList then PowerSupplyType.USB
      else if buf2 = "Wireless".toList then PowerSupplyType.Wireless
      else PowerSupplyType.Unknown

/-- The resolved attribute paths (struct PowerSupplyPaths); an empty
string is an unset String8, exactly as in the source globals. -/
structure PowerSupplyPaths where
  batteryStatusPath : String
  batteryHealthPath : String
  batteryPresentPath : String
  batteryCapacityPath : String
  batteryChargeNowPath : String
  batteryChargeFullPath : String
  batteryVoltagePath : String
  batteryTemperaturePath : String
  batteryTechnologyPath : String
deriving DecidableEq, Repr

/-- All paths unset: the default-constructed gPaths global. -/
def initPaths : PowerSupplyPaths :=
  { batteryStatusPath := ""
    batteryHealthPath := ""
    batteryPresentPath := ""
    batteryCapacityPath := ""
    batteryChargeNowPath := ""
    batteryChargeFullPath := ""
    batteryVoltagePath := ""
    batteryTemperaturePath := ""
    batteryTechnologyPath := "" }

/-- The discovery-time globals: gPaths, gChargerNames, gVoltageDivisor. -/
structure Globals where
  paths : PowerSupplyPaths
  chargerNames : List String
  voltageDivisor : Int
deriving Repr

/-- Initial global state: no paths, no chargers, divisor 1. -/
def initGlobals : Globals :=
  { paths := initPaths, chargerNames := [], voltageDivisor := 1 }

/-- The three online flags computed by the charger loop of update. -/
structure ChargerFlags where
  acOnline : Bool
  usbOnline : Bool
  wirelessOnline : Bool
deriving DecidableEq, Repr

/-- The caller-owned output record whose fields update writes through
JNI (the com.android.server.BatteryService fields). -/
structure BatteryRecord where
  acOnline : Bool
  usbOnline : Bool
  wirelessOnline : Bool
  batteryPresent : Bool
  batteryLevel : Int
  batteryVoltage : Int
  batteryTemperature : Int
  batteryStatus : BatteryStatus
  batteryHealth : BatteryHealth
  batteryTechnology : Option (List Char)
deriving DecidableEq, Repr

/-- One charger is online when its online file reads successfully and
the first byte differs from the character 0. -/
def chargerOnline (fs : FS) (name : String) : Bool :=
  match readFromFile fs (psPath name "online") 128 with
  | some buf => firstCharNonZero buf
  | none => false

/-- Boolean test for the AC classification. -/
def isAC : PowerSupplyType → Bool
  | PowerSupplyType.AC => true
  | _ => false

/-- One charger contributes to acOnline when it is online and its type
file classifies as AC. -/
def chargerAC (fs : FS) (name : String) : Bool :=
  chargerOnline fs name && isAC (readPowerSupplyType fs (psPath name "type"))

/-- One iteration of the charger loop in update: an online charger sets
the flag of its classified type; an Unknown type only logs. -/
def chargerStep (fs : FS) (f : ChargerFlags) (name : String) : ChargerFlags :=
  if chargerOnline fs name then
    match readPowerSupplyType fs (psPath name "type") with
    | PowerSupplyType.AC => { f with acOnline := true }
    | PowerSupplyType.USB => { f with usbOnline := true }
    | PowerSupplyType.Wireless => { f with wirelessOnline := true }
    | _ => f
  else f

/-- The whole charger loop of update, including the final i == 0 check
that forces acOnline when no charger name was iterated. -/
def chargerFlags (fs : FS) (names : List String) : ChargerFlags :=
  let f := names.foldl (chargerStep fs)
    { acOnline := false, usbOnline := false, wirelessOnline := false }
  if names.length = 0 then { f with acOnline := true } else f

/-- android_server_BatteryService_update: one poll.  Each field of the
result is the value the source writes through JNI into the output
object; a field the source does not write keeps the previous value of
the caller-owned record. -/
def android_server_BatteryService_update
    (fs : FS) (g : Globals) (prev : BatteryRecord) : BatteryRecord :=
  let present := setBooleanField fs g.paths.batteryPresentPath
  let level :=
    if g.paths.batteryPresentPath = "" then (100 : Int)
    else if g.paths.batteryCapacityPath = "" then
      setChargeLevel fs g.paths.batteryChargeNowPath
        g.paths.batteryChargeFullPath prev.batteryLevel
    else setIntField fs g.paths.batteryCapacityPath
  let voltage := setVoltageField fs g.paths.batteryVoltagePath g.voltageDivisor
  let temp := setIntField fs g.paths.batteryTemperaturePath
  let status :=
    match readFromFile fs g.paths.batteryStatusPath 128 with
    | some buf => getBatteryStatus buf
    | none => BatteryStatus.Unknown
  let health :=
    match readFromFile fs g.paths.batteryHealthPath 128 with
    | some buf => getBatteryHealth buf
    | none => prev.batteryHealth
  let tech :=
    match readFromFile fs g.paths.batteryTechnologyPath 128 with
    | some buf => some buf
    | none => prev.batteryTechnology
  let flags := chargerFlags fs g.chargerNames
  { acOnline := flags.acOnline
    usbOnline := flags.usbOnline
    wirelessOnline := flags.wirelessOnline
    batteryPresent := present
    batteryLevel := level
    batteryVoltage := voltage
    batteryTemperature := temp
    batteryStatus := status
    batteryHealth := health
    batteryTechnology := tech }

/-- The capacity resolution cascade of the Battery discovery branch:
prefer capacity; else record charge_now if readable and additionally
charge_full if readable; else record energy_now if readable and
additionally energy_full if readable (both recorded into the charge
path slots). -/
def resolveCapacity (rd : String → Bool) (name : String)
    (p : PowerSupplyPaths) : PowerSupplyPaths :=
  if rd (psPath name "capacity") then
    { p with batteryCapacityPath := psPath name "capacity" }
  else if rd (psPath name "charge_now") then
    let p1 := { p with batteryChargeNowPath := psPath name "charge_now" }
    if rd (psPath name "charge_full") then
      { p1 with batteryChargeFullPath := psPath name "charge_full" }
    else p1
  else if rd (psPath name "energy_now") then
    let p1 := { p with batteryChargeNowPath := psPath name "energy_now" }
    if rd (psPath name "energy_full") then
      { p1 with batteryChargeFullPath := psPath name "energy_full" }
    else p1
  else p

/-- The voltage resolution of the Battery discovery branch: voltage_now
sets the path and the divisor 1000; otherwise batt_vol sets only the
path, leaving the divisor argument (initially 1) unchanged. -/
def resolveVoltage (rd : String → Bool) (name : String)
    (p : PowerSupplyPaths) (d : Int) : PowerSupplyPaths × Int :=
  if rd (psPath name "voltage_now") then
    ({ p with batteryVoltagePath := psPath name "voltage_now" }, 1000)
  else if rd (psPath name "batt_vol") then
    ({ p with batteryVoltagePath := psPath name "batt_vol" }, d)
  else (p, d)

/-- The whole Battery case of the discovery switch: resolve every
attribute path of one battery directory in source order. -/
def resolveBattery (rd : String → Bool) (name : String)
    (p : PowerSupplyPaths) (d : Int) : PowerSupplyPaths × Int :=
  let p := if rd (psPath name "status") then
    { p with batteryStatusPath := psPath name "status" } else p
  let p := if rd (psPath name "health") then
    { p with batteryHealthPath := psPath name "health" } else p
  let p := if rd (psPath name "present") then
    { p with batteryPresentPath := psPath name "present" } else p
  let p := resolveCapacity rd name p
  let pd := resolveVoltage rd name p d
  let p := pd.1
  let d := pd.2
  let p := if rd (psPath name "temp") then
    { p with batteryTemperaturePath := psPath name "temp" }
    else if rd (psPath name "batt_temp") then
    { p with batteryTemperaturePath := psPath name "batt_temp" } else p
  let p := if rd (psPath name "technology") then
    { p with batteryTechnologyPath := psPath name "technology" } else p
  (p, d)

/-- One iteration of the readdir loop of discovery: skip the dot
entries, classify the type file, record charger names with a readable
online file, and resolve battery paths for Battery entries. -/
def discoverStep (rd : String → Bool) (fs : FS) (st : Globals)
    (name : String) : Globals :=
  if name = "." ∨ name = ".." then st
  else
    match readPowerSupplyType fs (psPath name "type") with
    | PowerSupplyType.AC | PowerSupplyType.USB | PowerSupplyType.Wireless =>
        if rd (psPath name "online") then
          { st with chargerNames := st.chargerNames ++ [name] }
        else st
    | PowerSupplyType.Battery =>
        let pd := resolveBattery rd name st.paths st.voltageDivisor
        { st with paths := pd.1, voltageDivisor := pd.2 }
    | PowerSupplyType.Unknown => st

/-- The discovery portion of register_android_server_BatteryService:
none models an unopenable root directory (discovery yields the initial
globals); some es models the iterated directory entries.  The JNI
field-binding part of the source function is host-runtime glue outside
this model. -/
def register_android_server_BatteryService (rd : String → Bool) (fs : FS)
    (entries : Option (List String)) : Globals :=
  match entries with
  | none => initGlobals
  | some es => es.foldl (discoverStep rd fs) initGlobals

/-- The type strings the classifier recognizes, in source order. -/
def knownTypeStrings : List (List Char) :=
  ["Battery".toList, "Mains".toList, "USB_DCP".toList, "USB_CDP".toList,
   "USB_ACA".toList, "USB".toList, "Wireless".toList]

/-- The empty filesystem: every open fails. -/
def fsNone : FS := fun _ => none

/-- A sample previous output record with distinctive field values. -/
def prevSample : BatteryRecord :=
  { acOnline := false
    usbOnline := false
    wirelessOnline := false
    batteryPresent := true
    batteryLevel := 42
    batteryVoltage := 5
    batteryTemperature := 7
    batteryStatus := BatteryStatus.Charging
    batteryHealth := BatteryHealth.Good
    batteryTechnology := some ("Li-ion".toList) }

/-- Filesystem with charge files 50 and 200. -/
def fsC3a : FS := fun p =>
  if p = "bat/charge_now" then some ("50\n".toList)
  else if p = "bat/charge_full" then some ("200\n".toList)
  else none

/-- Filesystem with charge files 1 and 3. -/
def fsC3b : FS := fun p =>
  if p = "bat/charge_now" then some ("1\n".toList)
  else if p = "bat/charge_full" then some ("3\n".toList)
  else none

/-- Filesystem where the charge-full file is unreadable. -/
def fsC3fail : FS := fun p =>
  if p = "bat/charge_now" then some ("50\n".toList) else none

/-- Filesystem whose charge-full file contains the digit 0. -/
def fsC4 : FS := fun p =>
  if p = "bat/charge_now" then some ("50\n".toList)
  else if p = "bat/charge_full" then some ("0\n".toList)
  else none

/-- Filesystem with a voltage_now file holding microvolts. -/
def fsV1 : FS := fun p =>
  if p = "bat/voltage_now" then some ("3700000\n".toList) else none

/-- Filesystem with a batt_vol file holding millivolts. -/
def fsV2 : FS := fun p =>
  if p = "bat/batt_vol" then some ("3700\n".toList) else none

/-- Filesystem with a Battery type file. -/
def fsTypeB : FS := fun p =>
  if p = "bat/type" then some ("Battery\n".toList) else none

/-- Readability probe where charge_now and both energy files are
readable but capacity and charge_full are not. -/
def rdC2 : String → Bool := fun q =>
  q == psPath "bat" "charge_now" || q == psPath "bat" "energy_now" ||
  q == psPath "bat" "energy_full"

/-- Readability probe where only the capacity file is readable. -/
def rdCap : String → Bool := fun q => q == psPath "bat" "capacity"

/-- Readability probe where only the voltage_now file is readable. -/
def rdVN : String → Bool := fun q => q == psPath "bat" "voltage_now"


/-- After dropping leading newlines, the head is not a newline. -/
theorem dropWhileNL_head (l : List Char) (c : Char)
    (h : (l.dropWhile fun x => x == '\n').head? = some c) : c ≠ '\n' := by
  induction l with
  | nil => simp [List.dropWhile] at h
  | cons a t ih =>
      by_cases ha : a = '\n'
      · subst ha
        simp only [List.dropWhile] at h
        simp at h
        exact ih h
      · have hb : (a == '\n') = false := by simp [ha]
        simp only [List.dropWhile, hb] at h
        simp at h
        subst h
        exact ha

/-- The newline-stripped content never ends with a newline. -/
theorem stripNL_getLast (l : List Char) : (stripNL l).getLast? ≠ some '\n' := by
  unfold stripNL
  rw [List.getLast?_reverse]
  intro h
  exact dropWhileNL_head l.reverse '\n' h rfl

/-- A successful readFromFile never returns content ending in a
newline. -/
theorem readFromFile_getLast (fs : FS) (path : String) (size : Nat)
    (buf : List Char) (h : readFromFile fs path size = some buf) :
    buf.getLast? ≠ some '\n' := by
  unfold readFromFile at h
  split at h
  · cases h
  · split at h
    · cases h
    · split at h
      · cases h
      · injection h with h
        subst h
        exact stripNL_getLast _

/-- For a successful type-file read, readPowerSupplyType is the exact
string cascade on the stripped content (the trailing-newline branch is
inert because the content is already stripped). -/
theorem readPowerSupplyType_some (fs : FS) (path : String) (buf : List Char)
    (h : readFromFile fs path 128 = some buf) :
    readPowerSupplyType fs path =
      (if buf = "Battery".toList then PowerSupplyType.Battery
       else if buf = "Mains".toList then PowerSupplyType.AC
       else if buf = "USB_DCP".toList then PowerSupplyType.AC
       else if buf = "USB_CDP".toList then PowerSupplyType.AC
       else if buf = "USB_ACA".toList then PowerSupplyType.AC
       else if buf = "USB".toList then PowerSupplyType.USB
       else if buf = "Wireless".toList then PowerSupplyType.Wireless
       else PowerSupplyType.Unknown) := by
  have hnl : buf.getLast? ≠ some '\n' := readFromFile_getLast fs path 128 buf h
  unfold readPowerSupplyType
  rw [h]
  simp only [if_neg hnl]

/-- The acOnline component of one charger-loop iteration accumulates
the AC-online test of that charger. -/
theorem chargerStep_acOnline (fs : FS) (f : ChargerFlags) (name : String) :
    (chargerStep fs f name).acOnline = (f.acOnline || chargerAC fs name) := by
  unfold chargerStep chargerAC
  cases h : chargerOnline fs name
  · simp [h]
  · cases h2 : readPowerSupplyType fs (psPath name "type") <;> simp [h, h2, isAC]

/-- The acOnline component of the folded charger loop is the disjunction
of the per-charger AC-online tests. -/
theorem foldlCharger_acOnline (fs : FS) (names : List String) :
    ∀ f : ChargerFlags, (names.foldl (chargerStep fs) f).acOnline
      = (f.acOnline || names.any fun n => chargerAC fs n) := by
  induction names with
  | nil => intro f; simp
  | cons n t ih =>
      intro f
      simp only [List.foldl_cons, List.any_cons]
      rw [ih, chargerStep_acOnline, Bool.or_assoc]

/-- isAC in propositional form. -/
theorem isAC_iff (t : PowerSupplyType) : isAC t = true ↔ t = PowerSupplyType.AC := by
  cases t <;> simp [isAC]

/-- Unfolding of the status classifier on a nonempty string. -/
theorem getBatteryStatus_cons (c : Char) (t : List Char) :
    getBatteryStatus (c :: t) =
      (if c = 'C' then BatteryStatus.Charging
       else if c = 'D' then BatteryStatus.Discharging
       else if c = 'F' then BatteryStatus.Full
       else if c = 'N' then BatteryStatus.NotCharging
       else if c = 'U' then BatteryStatus.Unknown
       else BatteryStatus.Unknown) := rfl

/-- Unfolding of the health classifier on a nonempty string. -/
theorem getBatteryHealth_cons (c : Char) (t : List Char) :
    getBatteryHealth (c :: t) =
      (if c = 'C' then BatteryHealth.Cold
       else if c = 'D' then BatteryHealth.Dead
       else if c = 'G' then BatteryHealth.Good
       else if c = 'O' then
         if c :: t = "Overheat".toList then BatteryHealth.Overheat
         else if c :: t = "Over voltage".toList then BatteryHealth.OverVoltage
         else BatteryHealth.Unknown
       else if c = 'U' then
         if c :: t = "Unspecified failure".toList then BatteryHealth.UnspecifiedFailure
         else if c :: t = "Unknown".toList then BatteryHealth.Unknown
         else BatteryHealth.Unknown
       else BatteryHealth.Unknown) := rfl

/-- Claim C1 counterexample: with no presence path resolved, the poll
writes batteryPresent = false (the boolean read of the empty path
fails and setBooleanField writes its default), not true as the claim
states; a previous value of true is overwritten. -/
theorem presence_absent_sets_false_cex :
    prevSample.batteryPresent = true ∧
    initGlobals.paths.batteryPresentPath = "" ∧
    (android_server_BatteryService_update fsNone initGlobals
      prevSample).batteryPresent = false := by
  exact ⟨rfl, rfl, by decide⟩

/-- Claim C1 (amended): for every poll with no presence path resolved,
batteryPresent is written false and batteryLevel is written 100, the
latter for every filesystem content, so neither the capacity file nor
the charge-pair files can influence the output. -/
theorem presence_absent_fallback (fs : FS) (g : Globals) (prev : BatteryRecord)
    (h : g.paths.batteryPresentPath = "") :
    (android_server_BatteryService_update fs g prev).batteryPresent = false ∧
    (android_server_BatteryService_update fs g prev).batteryLevel = 100 := by
  unfold android_server_BatteryService_update
  constructor
  · simp [setBooleanField, readFromFile, h]
  · simp [h]

/-- Witness for the amended claim C1 at a concrete input. -/
theorem presence_absent_fallback_witness :
    (android_server_BatteryService_update fsNone initGlobals
      prevSample).batteryPresent = false ∧
    (android_server_BatteryService_update fsNone initGlobals
      prevSample).batteryLevel = 100 :=
  presence_absent_fallback fsNone initGlobals prevSample rfl

/-- Claim C3: the charge-pair poll writes now * 100 / full with
truncating division when both reads succeed and leaves the field at its
previous value when either read fails; concretely 50 over 200 gives 25,
1 over 3 gives 33, and a previously recorded 42 is retained on failure;
inside update the branch feeds the battery-level field whenever the
presence path is set and the capacity path is not. -/
theorem chargeLevel_spec (fs : FS) (nP fP : String) (prev : Int) :
    (∀ b1 b2, readFromFile fs nP 128 = some b1 →
      readFromFile fs fP 128 = some b2 →
      setChargeLevel fs nP fP prev = Int.tdiv (atoi b1 * 100) (atoi b2)) ∧
    (readFromFile fs nP 128 = none → setChargeLevel fs nP fP prev = prev) ∧
    (readFromFile fs fP 128 = none → setChargeLevel fs nP fP prev = prev) ∧
    (∀ g prev2, g.paths.batteryPresentPath ≠ "" →
      g.paths.batteryCapacityPath = "" →
      g.paths.batteryChargeNowPath = nP → g.paths.batteryChargeFullPath = fP →
      (android_server_BatteryService_update fs g prev2).batteryLevel =
        setChargeLevel fs nP fP prev2.batteryLevel) ∧
    setChargeLevel fsC3a "bat/charge_now" "bat/charge_full" 0 = 25 ∧
    setChargeLevel fsC3b "bat/charge_now" "bat/charge_full" 0 = 33 ∧
    setChargeLevel fsC3fail "bat/charge_now" "bat/charge_full" 42 = 42 := by
  refine ⟨?_, ?_, ?_, ?_, by decide, by decide, by decide⟩
  · intro b1 b2 h1 h2
    unfold setChargeLevel
    rw [h1, h2]
  · intro h1
    unfold setChargeLevel
    rw [h1]
  · intro h2
    unfold setChargeLevel
    rw [h2]
    cases readFromFile fs nP 128 <;> rfl
  · intro g prev2 h1 h2 h3 h4
    unfold android_server_BatteryService_update
    simp [h1, h2, h3, h4]

/-- Witness for claim C3 at a concrete input. -/
theorem chargeLevel_spec_witness :
    setChargeLevel fsC3a "bat/charge_now" "bat/charge_full" 7 =
      Int.tdiv (atoi ("50".toList) * 100) (atoi ("200".toList)) :=
  (chargeLevel_spec fsC3a "bat/charge_now" "bat/charge_full" 7).1
    ("50".toList) ("200".toList) (by decide) (by decide)

/-- Claim C4: a filesystem content exists for which both charge-pair
reads succeed while the parsed charge-full value is 0, so the division
now * 100 / 0 is reached inside the success branch of setChargeLevel;
the write does happen there, as the previous value 42 is replaced. -/
theorem chargeLevel_zero_divisor_reachable :
    readFromFile fsC4 "bat/charge_now" 128 = some ("50".toList) ∧
    readFromFile fsC4 "bat/charge_full" 128 = some ("0".toList) ∧
    atoi ("0".toList) = 0 ∧
    setChargeLevel fsC4 "bat/charge_now" "bat/charge_full" 42 ≠ 42 := by
  exact ⟨by decide, by decide, by decide, by decide⟩

/-- Claim C5: acOnline is forced true exactly when the charger list is
empty; with a nonempty list it is true iff some listed charger has an
online file reading true and a type file classifying as AC; the poll
output acOnline is exactly the loop result, and discovery over an
unopenable or empty root directory yields an empty charger list. -/
theorem acOnline_aggregation (fs : FS) (names : List String)
    (rd : String → Bool) :
    (names = [] → (chargerFlags fs names).acOnline = true) ∧
    (names ≠ [] → ((chargerFlags fs names).acOnline = true ↔
      ∃ n, n ∈ names ∧ chargerOnline fs n = true ∧
        readPowerSupplyType fs (psPath n "type") = PowerSupplyType.AC)) ∧
    (∀ g prev, g.chargerNames = names →
      (android_server_BatteryService_update fs g prev).acOnline =
        (chargerFlags fs names).acOnline) ∧
    (register_android_server_BatteryService rd fs none).chargerNames = [] ∧
    (register_android_server_BatteryService rd fs
      (some [])).chargerNames = [] := by
  refine ⟨?_, ?_, ?_, rfl, rfl⟩
  · intro h
    subst h
    rfl
  · intro h
    unfold chargerFlags
    have hlen : ¬ names.length = 0 := by simpa using h
    simp only [if_neg hlen]
    rw [foldlCharger_acOnline]
    simp only [Bool.false_or]
    rw [List.any_eq_true]
    constructor
    · rintro ⟨n, hn, hac⟩
      unfold chargerAC at hac
      rw [Bool.and_eq_true] at hac
      exact ⟨n, hn, hac.1, (isAC_iff _).1 hac.2⟩
    · rintro ⟨n, hn, h1, h2⟩
      refine ⟨n, hn, ?_⟩
      unfold chargerAC
      rw [h1, h2]
      rfl
  · intro g prev hg
    unfold android_server_BatteryService_update
    simp [hg]

/-- Witness for claim C5 at a concrete input. -/
theorem acOnline_aggregation_witness :
    (chargerFlags fsNone ([] : List String)).acOnline = true :=
  (acOnline_aggregation fsNone [] rdCap).1 rfl

/-- Claim C6: discovery fixes the divisor by which voltage filename is
readable — voltage_now gives 1000, batt_vol leaves the initial 1 — and
each poll divides the parsed voltage by that divisor with truncating
division; content 3700000 under divisor 1000 and content 3700 under
divisor 1 both yield 3700. -/
theorem voltage_divisor_spec (rd : String → Bool) (name : String)
    (p : PowerSupplyPaths) (d dv : Int) (fs : FS) (path : String)
    (buf : List Char) :
    (rd (psPath name "voltage_now") = true →
      (resolveVoltage rd name p d).2 = 1000 ∧
      (resolveVoltage rd name p d).1.batteryVoltagePath =
        psPath name "voltage_now") ∧
    (rd (psPath name "voltage_now") = false →
      rd (psPath name "batt_vol") = true →
      (resolveVoltage rd name p 1).2 = 1 ∧
      (resolveVoltage rd name p 1).1.batteryVoltagePath =
        psPath name "batt_vol") ∧
    (readFromFile fs path 128 = some buf →
      setVoltageField fs path dv = Int.tdiv (atoi buf) dv) ∧
    setVoltageField fsV1 "bat/voltage_now" 1000 = 3700 ∧
    setVoltageField fsV2 "bat/batt_vol" 1 = 3700 := by
  refine ⟨?_, ?_, ?_, by decide, by decide⟩
  · intro h
    unfold resolveVoltage
    simp [h]
  · intro h1 h2
    unfold resolveVoltage
    simp [h1, h2]
  · intro h
    unfold setVoltageField
    rw [h]

/-- Witness for claim C6 at a concrete input. -/
theorem voltage_divisor_spec_witness :
    (resolveVoltage rdVN "bat" initPaths 1).2 = 1000 ∧
    (resolveVoltage rdVN "bat" initPaths 1).1.batteryVoltagePath =
      psPath "bat" "voltage_now" :=
  (voltage_divisor_spec rdVN "bat" initPaths 1 1 fsNone "" []).1 (by decide)

/-- Claim C2 counterexample: with capacity and charge_full unreadable
but charge_now and both energy files readable, discovery still records
the charge_now path, leaves charge_full unset and never consults the
energy pair — refuting the both-or-neither rule of the claim. -/
theorem capacity_pair_half_recorded_cex :
    rdC2 (psPath "bat" "capacity") = false ∧
    rdC2 (psPath "bat" "charge_now") = true ∧
    rdC2 (psPath "bat" "charge_full") = false ∧
    rdC2 (psPath "bat" "energy_now") = true ∧
    rdC2 (psPath "bat" "energy_full") = true ∧
    (resolveCapacity rdC2 "bat" initPaths).batteryChargeNowPath =
      psPath "bat" "charge_now" ∧
    (resolveCapacity rdC2 "bat" initPaths).batteryChargeFullPath = "" := by
  exact ⟨by decide, by decide, by decide, by decide, by decide, by decide,
    by decide⟩

/-- Claim C2 (amended): the capacity cascade prefers a readable
capacity file; otherwise a readable charge_now is recorded
unconditionally and charge_full is additionally recorded only when
readable; the energy pair is consulted only when charge_now is
unreadable, under the same one-sided rule; with nothing readable all
three slots stay unset. -/
theorem capacity_fallback_cascade (rd : String → Bool) (name : String) :
    (rd (psPath name "capacity") = true →
      (resolveCapacity rd name initPaths).batteryCapacityPath =
        psPath name "capacity" ∧
      (resolveCapacity rd name initPaths).batteryChargeNowPath = "" ∧
      (resolveCapacity rd name initPaths).batteryChargeFullPath = "") ∧
    (rd (psPath name "capacity") = false →
      rd (psPath name "charge_now") = true →
      (resolveCapacity rd name initPaths).batteryCapacityPath = "" ∧
      (resolveCapacity rd name initPaths).batteryChargeNowPath =
        psPath name "charge_now" ∧
      (resolveCapacity rd name initPaths).batteryChargeFullPath =
        (if rd (psPath name "charge_full") then psPath name "charge_full"
         else "")) ∧
    (rd (psPath name "capacity") = false →
      rd (psPath name "charge_now") = false →
      rd (psPath name "energy_now") = true →
      (resolveCapacity rd name initPaths).batteryCapacityPath = "" ∧
      (resolveCapacity rd name initPaths).batteryChargeNowPath =
        psPath name "energy_now" ∧
      (resolveCapacity rd name initPaths).batteryChargeFullPath =
        (if rd (psPath name "energy_full") then psPath name "energy_full"
         else "")) ∧
    (rd (psPath name "capacity") = false →
      rd (psPath name "charge_now") = false →
      rd (psPath name "energy_now") = false →
      resolveCapacity rd name initPaths = initPaths) := by
  refine ⟨?_, ?_, ?_, ?_⟩
  · intro h
    unfold resolveCapacity
    simp [h, initPaths]
  · intro h1 h2
    unfold resolveCapacity
    cases h3 : rd (psPath name "charge_full") <;> simp [h1, h2, h3, initPaths]
  · intro h1 h2 h3
    unfold resolveCapacity
    cases h4 : rd (psPath name "energy_full") <;> simp [h1, h2, h3, h4, initPaths]
  · intro h1 h2 h3
    unfold resolveCapacity
    simp [h1, h2, h3]

/-- Witness for the amended claim C2 at a concrete input. -/
theorem capacity_fallback_cascade_witness :
    (resolveCapacity rdCap "bat" initPaths).batteryCapacityPath =
      psPath "bat" "capacity" ∧
    (resolveCapacity rdCap "bat" initPaths).batteryChargeNowPath = "" ∧
    (resolveCapacity rdCap "bat" initPaths).batteryChargeFullPath = "" :=
  (capacity_fallback_cascade rdCap "bat").1 (by decide)

/-- Claim C7: the health classifier dispatches on the first character;
C, D and G map to Cold, Dead and Good for any tail; an O string maps to
Overheat or OverVoltage only for the two exact strings and otherwise to
Unknown; a U string maps to UnspecifiedFailure only for the exact
failure string and otherwise — the exact string Unknown included — to
Unknown; any other first character gives Unknown. -/
theorem battery_health_classifier (rest s : List Char) (c : Char) :
    getBatteryHealth ('C' :: rest) = BatteryHealth.Cold ∧
    getBatteryHealth ('D' :: rest) = BatteryHealth.Dead ∧
    getBatteryHealth ('G' :: rest) = BatteryHealth.Good ∧
    getBatteryHealth ("Overheat".toList) = BatteryHealth.Overheat ∧
    getBatteryHealth ("Over voltage".toList) = BatteryHealth.OverVoltage ∧
    (s.head? = some 'O' → s ≠ "Overheat".toList →
      s ≠ "Over voltage".toList →
      getBatteryHealth s = BatteryHealth.Unknown) ∧
    getBatteryHealth ("Unspecified failure".toList) =
      BatteryHealth.UnspecifiedFailure ∧
    getBatteryHealth ("Unknown".toList) = BatteryHealth.Unknown ∧
    (s.head? = some 'U' → s ≠ "Unspecified failure".toList →
      getBatteryHealth s = BatteryHealth.Unknown) ∧
    (s.head? = some c → c ∉ (['C', 'D', 'G', 'O', 'U'] : List Char) →
      getBatteryHealth s = BatteryHealth.Unknown) := by
  refine ⟨rfl, rfl, rfl, by decide, by decide, ?_, by decide, by decide,
    ?_, ?_⟩
  · intro h h1 h2
    cases s with
    | nil => simp at h
    | cons a t =>
        have ha : a = 'O' := by simpa using h
        subst ha
        rw [getBatteryHealth_cons, if_neg h1, if_neg h2]
        simp
  · intro h h1
    cases s with
    | nil => simp at h
    | cons a t =>
        have ha : a = 'U' := by simpa using h
        subst ha
        rw [getBatteryHealth_cons, if_neg h1, ite_self]
        simp
  · intro h hc
    cases s with
    | nil => simp at h
    | cons a t =>
        have ha : a = c := by simpa using h
        subst ha
        simp only [List.mem_cons, List.not_mem_nil, or_false, not_or] at hc
        obtain ⟨h1, h2, h3, h4, h5⟩ := hc
        rw [getBatteryHealth_cons]
        simp [h1, h2, h3, h4, h5]

/-- Witness for claim C7 at a concrete input: the string Other has
first character O but matches neither exact string. -/
theorem battery_health_classifier_witness :
    getBatteryHealth ("Other".toList) = BatteryHealth.Unknown :=
  (battery_health_classifier [] ("Other".toList) 'X').2.2.2.2.2.1
    (by decide) (by decide) (by decide)

/-- Claim C8: the supply-type classifier maps the exact stripped
contents Battery, Mains, USB_DCP, USB_CDP, USB_ACA, USB and Wireless to
their types and everything else — unreadable files and empty contents
read as failures included — to Unknown. -/
theorem power_supply_type_classifier (fs : FS) (path : String) :
    (readFromFile fs path 128 = some ("Battery".toList) →
      readPowerSupplyType fs path = PowerSupplyType.Battery) ∧
    (readFromFile fs path 128 = some ("Mains".toList) →
      readPowerSupplyType fs path = PowerSupplyType.AC) ∧
    (readFromFile fs path 128 = some ("USB_DCP".toList) →
      readPowerSupplyType fs path = PowerSupplyType.AC) ∧
    (readFromFile fs path 128 = some ("USB_CDP".toList) →
      readPowerSupplyType fs path = PowerSupplyType.AC) ∧
    (readFromFile fs path 128 = some ("USB_ACA".toList) →
      readPowerSupplyType fs path = PowerSupplyType.AC) ∧
    (readFromFile fs path 128 = some ("USB".toList) →
      readPowerSupplyType fs path = PowerSupplyType.USB) ∧
    (readFromFile fs path 128 = some ("Wireless".toList) →
      readPowerSupplyType fs path = PowerSupplyType.Wireless) ∧
    (∀ buf, readFromFile fs path 128 = some buf → buf ∉ knownTypeStrings →
      readPowerSupplyType fs path = PowerSupplyType.Unknown) ∧
    (readFromFile fs path 128 = none →
      readPowerSupplyType fs path = PowerSupplyType.Unknown) := by
  refine ⟨?_, ?_, ?_, ?_, ?_, ?_, ?_, ?_, ?_⟩
  · intro h
    rw [readPowerSupplyType_some fs path _ h]
    decide
  · intro h
    rw [readPowerSupplyType_some fs path _ h]
    decide
  · intro h
    rw [readPowerSupplyType_some fs path _ h]
    decide
  · intro h
    rw [readPowerSupplyType_some fs path _ h]
    decide
  · intro h
    rw [readPowerSupplyType_some fs path _ h]
    decide
  · intro h
    rw [readPowerSupplyType_some fs path _ h]
    decide
  · intro h
    rw [readPowerSupplyType_some fs path _ h]
    decide
  · intro buf h hmem
    rw [readPowerSupplyType_some fs path buf h]
    simp only [knownTypeStrings, List.mem_cons, List.not_mem_nil, or_false,
      not_or] at hmem
    obtain ⟨n1, n2, n3, n4, n5, n6, n7⟩ := hmem
    rw [if_neg n1, if_neg n2, if_neg n3, if_neg n4, if_neg n5, if_neg n6,
      if_neg n7]
  · intro h
    unfold readPowerSupplyType
    rw [h]

/-- Witness for claim C8 at a concrete input. -/
theorem power_supply_type_classifier_witness :
    readPowerSupplyType fsTypeB "bat/type" = PowerSupplyType.Battery :=
  (power_supply_type_classifier fsTypeB "bat/type").1 (by decide)

/-- Claim C9: the status classifier selects the result from the first
character alone — C, D, F, N, U map to Charging, Discharging, Full,
NotCharging, Unknown — independently of the remaining characters, and
any other first character gives Unknown. -/
theorem battery_status_classifier (rest tail1 tail2 : List Char)
    (c : Char) :
    getBatteryStatus ('C' :: rest) = BatteryStatus.Charging ∧
    getBatteryStatus ('D' :: rest) = BatteryStatus.Discharging ∧
    getBatteryStatus ('F' :: rest) = BatteryStatus.Full ∧
    getBatteryStatus ('N' :: rest) = BatteryStatus.NotCharging ∧
    getBatteryStatus ('U' :: rest) = BatteryStatus.Unknown ∧
    getBatteryStatus (c :: tail1) = getBatteryStatus (c :: tail2) ∧
    getBatteryStatus ("Charging".toList) = BatteryStatus.Charging ∧
    getBatteryStatus ("Charging\n".toList) = BatteryStatus.Charging ∧
    (c ∉ (['C', 'D', 'F', 'N', 'U'] : List Char) →
      getBatteryStatus (c :: rest) = BatteryStatus.Unknown) := by
  refine ⟨rfl, rfl, rfl, rfl, rfl, rfl, by decide, by decide, ?_⟩
  intro hc
  simp only [List.mem_cons, List.not_mem_nil, or_false, not_or] at hc
  obtain ⟨h1, h2, h3, h4, h5⟩ := hc
  rw [getBatteryStatus_cons]
  simp [h1, h2, h3, h4, h5]

/-- Witness for claim C9 at a concrete input. -/
theorem battery_status_classifier_witness :
    getBatteryStatus ('X' :: "yz".toList) = BatteryStatus.Unknown :=
  (battery_status_classifier ("yz".toList) [] [] 'X').2.2.2.2.2.2.2.2
    (by decide)

/-- Claim C10: when the health or technology read fails — an unset path
included — the corresponding output field keeps its previous value,
while status is always written (the Unknown code on failure) and
voltage and temperature are always written (0 on failure). -/
theorem update_frame_effects (fs : FS) (g : Globals) (prev : BatteryRecord) :
    (readFromFile fs g.paths.batteryHealthPath 128 = none →
      (android_server_BatteryService_update fs g prev).batteryHealth =
        prev.batteryHealth) ∧
    (readFromFile fs g.paths.batteryTechnologyPath 128 = none →
      (android_server_BatteryService_update fs g prev).batteryTechnology =
        prev.batteryTechnology) ∧
    (readFromFile fs g.paths.batteryStatusPath 128 = none →
      (android_server_BatteryService_update fs g prev).batteryStatus =
        BatteryStatus.Unknown) ∧
    (∀ buf, readFromFile fs g.paths.batteryStatusPath 128 = some buf →
      (android_server_BatteryService_update fs g prev).batteryStatus =
        getBatteryStatus buf) ∧
    (readFromFile fs g.paths.batteryVoltagePath 128 = none →
      (android_server_BatteryService_update fs g prev).batteryVoltage = 0) ∧
    (readFromFile fs g.paths.batteryTemperaturePath 128 = none →
      (android_server_BatteryService_update fs g prev).batteryTemperature
        = 0) := by
  refine ⟨?_, ?_, ?_, ?_, ?_, ?_⟩
  · intro h
    unfold android_server_BatteryService_update
    simp [h]
  · intro h
    unfold android_server_BatteryService_update
    simp [h]
  · intro h
    unfold android_server_BatteryService_update
    simp [h]
  · intro buf h
    unfold android_server_BatteryService_update
    simp [h]
  · intro h
    unfold android_server_BatteryService_update
    simp [setVoltageField, h]
  · intro h
    unfold android_server_BatteryService_update
    simp [setIntField, h]

/-- Witness for claim C10 at a concrete input: the previously held
health value Good is retained. -/
theorem update_frame_effects_witness :
    (android_server_BatteryService_update fsNone initGlobals
      prevSample).batteryHealth = prevSample.batteryHealth :=
  (update_frame_effects fsNone initGlobals prevSample).1 rfl
